import Mathlib

/-!
Formal model of the AgroSmart smart-irrigation dashboard.

The development shallowly embeds the data model and the operations of the
repository: the sensor normalization pipeline and remote pump contract of
`src/services/dataService.ts`, the authentication error mapping of the
auth service, the zone/pump toggle logic and the simulated sensor tick of
the dashboard component, and the report export encodings of
`src/components/Reports.tsx`.

JavaScript numbers are modelled by the rationals: every value the claims
touch is finite (the data model declares all sensor fields finite), so the
NaN and infinity cases of IEEE arithmetic reduce to the explicit
absent/failed-parse branches already present in the source, which the
embedding represents with `Option`.
-/

attribute [local semireducible] Rat.add Rat.sub Rat.mul Rat.inv Rat.ofScientific

namespace AgroSmart

/-- Models the JavaScript expression `v || fallback` for a string-or-null
value `v`: a `null`/`undefined` or empty string is falsy, so the fallback
is returned; any other string is returned unchanged. -/
def jsOrString (v : Option String) (fallback : String) : String :=
  match v with
  | none => fallback
  | some s => if s = "" then fallback else s

/-- Value of a list of decimal digit characters, most significant first. -/
def digitsToNat (ds : List Char) : Nat :=
  ds.foldl (fun acc c => 10 * acc + (c.toNat - 48)) 0

/-- Consume an optional leading sign, returning whether it was `-` and the
remaining characters. -/
def parseSign : List Char → Bool × List Char
  | '-' :: rest => (true, rest)
  | '+' :: rest => (false, rest)
  | cs => (false, cs)

/-- Parse the exponent part following `e`/`E` in a decimal literal; if no
digits follow, the exponent marker is ignored (exponent 0), matching
`parseFloat`, which only consumes a valid numeric prefix. -/
def parseExp (cs : List Char) : Int :=
  let (eneg, cs1) := parseSign cs
  let ds := cs1.takeWhile Char.isDigit
  if ds.isEmpty then 0
  else if eneg then -(digitsToNat ds : Int) else (digitsToNat ds : Int)

/-- Models the JavaScript builtin `parseFloat` on the finite-number domain:
skip leading whitespace, consume an optional sign, integer digits, an
optional fraction and an optional exponent, and return the value of the
longest such prefix; return `none` (`NaN`) when no digit was consumed.
The non-finite `"Infinity"` spelling lies outside the rational domain of
the model and is not represented. -/
def jsParseFloat (s : String) : Option ℚ :=
  let cs := s.toList.dropWhile Char.isWhitespace
  let (neg, cs1) := parseSign cs
  let intDigits := cs1.takeWhile Char.isDigit
  let cs2 := cs1.dropWhile Char.isDigit
  let (fracDigits, cs3) :=
    match cs2 with
    | '.' :: rest => (rest.takeWhile Char.isDigit, rest.dropWhile Char.isDigit)
    | _ => (([] : List Char), cs2)
  if intDigits.isEmpty && fracDigits.isEmpty then none
  else
    let mantissa : ℚ :=
      (digitsToNat intDigits : ℚ) + (digitsToNat fracDigits : ℚ) / (10 : ℚ) ^ fracDigits.length
    let expVal : Int :=
      match cs3 with
      | 'e' :: rest => parseExp rest
      | 'E' :: rest => parseExp rest
      | _ => 0
    let signed := if neg then -mantissa else mantissa
    some (signed * (10 : ℚ) ^ expVal)

/-- Models the two-argument `Math.max` on finite numbers. -/
def jsMax (a b : ℚ) : ℚ := if a ≤ b then b else a

/-- Models the two-argument `Math.min` on finite numbers. -/
def jsMin (a b : ℚ) : ℚ := if a ≤ b then a else b

/-- Models the JavaScript `%` operator on the nonnegative operands used in
the report code (`stats.totalTime % 60` with a nonnegative total). -/
def jsModQ (a b : ℚ) : ℚ := a - b * (⌊a / b⌋ : ℤ)

/-- Models `Number.prototype.toFixed(digits)` on exact rational values:
round half up to `digits` decimal places and render with a fixed number of
fraction digits. -/
def qToFixed (q : ℚ) (digits : Nat) : String :=
  let n : Int := round (q * (10 : ℚ) ^ digits)
  let sign := if n < 0 then "-" else ""
  let m := n.natAbs
  let base := (10 : Nat) ^ digits
  let intPart := m / base
  let fracPart := m % base
  if digits = 0 then sign ++ toString intPart
  else
    let fs := toString fracPart
    sign ++ toString intPart ++ "." ++
      String.mk (List.replicate (digits - fs.length) '0') ++ fs

end AgroSmart

namespace AgroSmart.DataService

/-- `SensorData` interface of `dataService.ts`: the canonical,
post-validation sensor record. -/
structure SensorData where
  soilMoisture : ℚ
  temperature : ℚ
  humidity : ℚ
  tankLevel : ℚ
  flowRate : ℚ
deriving DecidableEq, Repr

/-- Canonical field keys of `SensorData` (`keyof SensorData`). -/
inductive SensorDataKey where
  | soilMoisture
  | temperature
  | humidity
  | tankLevel
  | flowRate
deriving DecidableEq, Repr

/-- Look up a canonical record field by key. -/
def SensorData.get (d : SensorData) : SensorDataKey → ℚ
  | .soilMoisture => d.soilMoisture
  | .temperature => d.temperature
  | .humidity => d.humidity
  | .tankLevel => d.tankLevel
  | .flowRate => d.flowRate

/-- `FirebaseSensorFields`: the external (Firebase) field names. -/
inductive FirebaseSensorFields where
  | SoilMoisture
  | Temperature
  | Humidity
  | TankLevel
  | FlowRate_LperMin
deriving DecidableEq, Repr

/-- A raw Firebase value for one sensor field: `null`, a number, or a
string (numeric or not). -/
inductive RawValue where
  | vNull
  | vNum (q : ℚ)
  | vStr (s : String)
deriving DecidableEq, Repr

/-- A raw Firebase sensor record: each external field either present with
a raw value or absent (`undefined`). -/
structure RawRecord where
  SoilMoisture : Option RawValue
  Temperature : Option RawValue
  Humidity : Option RawValue
  TankLevel : Option RawValue
  FlowRate_LperMin : Option RawValue
deriving DecidableEq, Repr

/-- `data[key]` on a raw record. -/
def RawRecord.get (d : RawRecord) : FirebaseSensorFields → Option RawValue
  | .SoilMoisture => d.SoilMoisture
  | .Temperature => d.Temperature
  | .Humidity => d.Humidity
  | .TankLevel => d.TankLevel
  | .FlowRate_LperMin => d.FlowRate_LperMin

/-- `DataService.DEFAULT_SENSOR_DATA`: all five defaults are 0. -/
def DEFAULT_SENSOR_DATA : SensorData :=
  { soilMoisture := 0
    temperature := 0
    humidity := 0
    tankLevel := 0
    flowRate := 0 }

/-- An inclusive `[min, max]` validation range. -/
structure ValidationRange where
  min : ℚ
  max : ℚ
deriving DecidableEq, Repr

/-- `DataService.VALIDATION_RANGES`. -/
def VALIDATION_RANGES : SensorDataKey → ValidationRange
  | .soilMoisture => { min := 0, max := 100 }
  | .temperature => { min := -50, max := 100 }
  | .humidity => { min := 0, max := 100 }
  | .tankLevel => { min := 0, max := 100 }
  | .flowRate => { min := 0, max := 1000 }

/-- `DataService.mapFirebaseToSensorData`: the fixed, total mapping from
Firebase field names to canonical keys. -/
def mapFirebaseToSensorData : FirebaseSensorFields → SensorDataKey
  | .SoilMoisture => .soilMoisture
  | .Temperature => .temperature
  | .Humidity => .humidity
  | .TankLevel => .tankLevel
  | .FlowRate_LperMin => .flowRate

/-- `parseFloat(data[key])` on a present, non-null raw value: a number
parses to itself (finite domain), a string is parsed by `jsParseFloat`.
(`null` never reaches `parseFloat` in the source: the null check precedes
it; parsing the spelling `"null"` fails anyway, so `none` is faithful.) -/
def rawParseFloat : RawValue → Option ℚ
  | .vNull => none
  | .vNum q => some q
  | .vStr s => jsParseFloat s

/-- `DataService.parseAndValidateSensorValue`: absent record, absent or
null field, or failed parse yield the field default; a parsed value is
clamped into the field's validation range by
`Math.max(range.min, Math.min(range.max, value))`. (The source's
`if (range)` guard always succeeds: `VALIDATION_RANGES` is total on the
five keys, so the unclamped fall-through line is unreachable.) -/
def parseAndValidateSensorValue (data : Option RawRecord)
    (key : FirebaseSensorFields) : ℚ :=
  match data with
  | none => DEFAULT_SENSOR_DATA.get (mapFirebaseToSensorData key)
  | some d =>
    match d.get key with
    | none => DEFAULT_SENSOR_DATA.get (mapFirebaseToSensorData key)
    | some RawValue.vNull => DEFAULT_SENSOR_DATA.get (mapFirebaseToSensorData key)
    | some v =>
      match rawParseFloat v with
      | none => DEFAULT_SENSOR_DATA.get (mapFirebaseToSensorData key)
      | some value =>
        let range := VALIDATION_RANGES (mapFirebaseToSensorData key)
        jsMax range.min (jsMin range.max value)

/-- The normalization performed by `handleData` inside
`DataService.getSensorDataStream`: one `parseAndValidateSensorValue` call
per canonical field on the snapshot value. -/
def handleSensorSnapshot (data : Option RawRecord) : SensorData :=
  { soilMoisture := parseAndValidateSensorValue data .SoilMoisture
    temperature := parseAndValidateSensorValue data .Temperature
    humidity := parseAndValidateSensorValue data .Humidity
    tankLevel := parseAndValidateSensorValue data .TankLevel
    flowRate := parseAndValidateSensorValue data .FlowRate_LperMin }

/-- A transport-layer failure of the external realtime database. -/
structure TransportError where
  message : String
deriving DecidableEq, Repr

/-- `DataService.getSensorData` (the pull variant): the awaited fetch
either fails in transport (the `catch` branch returns the defaults),
returns no record (`!data` returns the defaults), or returns a raw record
that is normalized field by field exactly as in the streaming path. -/
def getSensorData (fetch : Except TransportError (Option RawRecord)) : SensorData :=
  match fetch with
  | .error _ => DEFAULT_SENSOR_DATA
  | .ok none => DEFAULT_SENSOR_DATA
  | .ok (some data) =>
    { soilMoisture := parseAndValidateSensorValue (some data) .SoilMoisture
      temperature := parseAndValidateSensorValue (some data) .Temperature
      humidity := parseAndValidateSensorValue (some data) .Humidity
      tankLevel := parseAndValidateSensorValue (some data) .TankLevel
      flowRate := parseAndValidateSensorValue (some data) .FlowRate_LperMin }

/-- `DataService.getPumpState`: returns `snapshot.val() || 'OFF'`, and
`'OFF'` from the `catch` branch on transport failure. -/
def getPumpState (fetch : Except TransportError (Option String)) : String :=
  match fetch with
  | .error _ => "OFF"
  | .ok v => jsOrString v "OFF"

/-- One entry of the append-only action audit log (`ActionLog` shape as
written by `logAction`: an action string, an ISO-8601 timestamp, a user). -/
structure ActionLogEntry where
  action : String
  timestamp : String
  user : String
deriving DecidableEq, Repr

/-- The externally stored control state the pump operations act on: the
remote `Controls/Pump` value and the `Actions` audit log. -/
structure ControlsState where
  pump : Option String
  actions : List ActionLogEntry
deriving DecidableEq, Repr

/-- The environment of one remote call: whether the pump write and the
audit-log write succeed in transport, and the wall-clock timestamp
`new Date().toISOString()` observed by `logAction`. -/
structure RemoteEnv where
  pumpWriteOk : Bool
  actionWriteOk : Bool
  now : String
deriving DecidableEq, Repr

/-- `DataService.logAction`: push one `{action, timestamp, user: 'web_app'}`
record onto the audit log; its own `catch` swallows a failed write, so a
transport failure leaves the log unchanged and raises nothing. -/
def logAction (env : RemoteEnv) (action : String) (st : ControlsState) : ControlsState :=
  if env.actionWriteOk then
    { st with actions := st.actions ++ [{ action := action, timestamp := env.now, user := "web_app" }] }
  else st

/-- `DataService.setPumpState`: a value other than the literals rejects
(the thrown validation error is caught, returning `false` with nothing
written); a transport failure of the pump write is caught the same way;
on a successful pump write the action `Pump:<state>` is logged (with
`logAction` swallowing its own failure) and `true` is returned. -/
def setPumpState (env : RemoteEnv) (state : String) (st : ControlsState) :
    Bool × ControlsState :=
  if state ≠ "ON" ∧ state ≠ "OFF" then (false, st)
  else if env.pumpWriteOk then
    let written := { st with pump := some state }
    (true, logAction env ("Pump:" ++ state) written)
  else (false, st)

end AgroSmart.DataService

namespace AgroSmart.AuthService

/-- The shape of a provider (Firebase Auth) error as consumed by
`getAuthErrorMessage`: an optional error code and an optional raw
message. -/
structure FirebaseAuthError where
  code : Option String
  message : Option String
deriving DecidableEq, Repr

/-- `AuthService.getAuthErrorMessage`: the switch over `error.code`, with
the default branch returning `error.message || 'An authentication error
occurred.'`. -/
def getAuthErrorMessage (error : FirebaseAuthError) : String :=
  if error.code = some "auth/user-not-found" then "No user found with this email address."
  else if error.code = some "auth/wrong-password" then "Incorrect password. Please try again."
  else if error.code = some "auth/email-already-in-use" then "An account already exists with this email address."
  else if error.code = some "auth/weak-password" then "Password is too weak. Please choose a stronger password."
  else if error.code = some "auth/invalid-email" then "Invalid email address. Please check your email."
  else if error.code = some "auth/user-disabled" then "This account has been disabled. Please contact support."
  else if error.code = some "auth/too-many-requests" then "Too many failed attempts. Please try again later."
  else if error.code = some "auth/operation-not-allowed" then "This sign-in method is not allowed. Please contact support."
  else if error.code = some "auth/invalid-credential" then "Invalid credentials. Please check your email and password."
  else if error.code = some "auth/requires-recent-login" then "Please sign in again to perform this action."
  else jsOrString error.message "An authentication error occurred."

/-- The closed vocabulary of user-readable authentication messages: the
ten mapped messages plus the catch-all. -/
def authErrorVocabulary : List String :=
  [ "No user found with this email address.",
    "Incorrect password. Please try again.",
    "An account already exists with this email address.",
    "Password is too weak. Please choose a stronger password.",
    "Invalid email address. Please check your email.",
    "This account has been disabled. Please contact support.",
    "Too many failed attempts. Please try again later.",
    "This sign-in method is not allowed. Please contact support.",
    "Invalid credentials. Please check your email and password.",
    "Please sign in again to perform this action.",
    "An authentication error occurred." ]

end AgroSmart.AuthService

namespace AgroSmart.Dashboard

/-- `SensorData` interface of the `Dashboard` component (distinct from the
canonical record of the data service): the local UI state, including the
zone flags and the derived pump flag. -/
structure SensorData where
  soilMoisture : ℚ
  sunlight : ℚ
  rainfall : ℚ
  tankLevel : ℚ
  phLevel : ℚ
  pumpStatus : Bool
  zone1Status : Bool
  zone2Status : Bool
  isConnected : Bool
  lastUpdate : String
deriving DecidableEq, Repr

/-- The initial `useState` value of the `Dashboard` component; the initial
`lastUpdate` clock reading is a parameter. -/
def initialSensorData (t : String) : SensorData :=
  { soilMoisture := 65
    sunlight := 24
    rainfall := 58
    tankLevel := 82
    phLevel := 6.8
    pumpStatus := false
    zone1Status := false
    zone2Status := false
    isConnected := true
    lastUpdate := t }

/-- `toggleZone1`: flip zone 1 and recompute the pump as the OR of the new
zone 1 flag and the unchanged zone 2 flag, in one state update. -/
def toggleZone1 (prev : SensorData) : SensorData :=
  let newZone1Status := !prev.zone1Status
  let newPumpStatus := newZone1Status || prev.zone2Status
  { prev with zone1Status := newZone1Status, pumpStatus := newPumpStatus }

/-- `toggleZone2`: flip zone 2 and recompute the pump as the OR of the
unchanged zone 1 flag and the new zone 2 flag, in one state update. -/
def toggleZone2 (prev : SensorData) : SensorData :=
  let newZone2Status := !prev.zone2Status
  let newPumpStatus := prev.zone1Status || newZone2Status
  { prev with zone2Status := newZone2Status, pumpStatus := newPumpStatus }

/-- A user zone-toggle intent: clicking the Zone 1 or Zone 2 button. -/
inductive ZoneToggle where
  | zone1
  | zone2
deriving DecidableEq, Repr

/-- Apply one toggle intent to the dashboard state. -/
def applyToggle : ZoneToggle → SensorData → SensorData
  | .zone1 => toggleZone1
  | .zone2 => toggleZone2

/-- Run a sequence of toggle intents, first intent first. -/
def runToggles (ops : List ZoneToggle) (s : SensorData) : SensorData :=
  ops.foldl (fun st op => applyToggle op st) s

/-- The derived-state invariant: the pump flag equals the OR of the zone
flags. -/
def pumpInvariant (s : SensorData) : Prop :=
  s.pumpStatus = (s.zone1Status || s.zone2Status)

instance (s : SensorData) : Decidable (pumpInvariant s) := by
  unfold pumpInvariant; infer_instance

/-- The randomness and clock consumed by one simulated-update tick: the
five `Math.random()` draws and the `toLocaleTimeString()` reading. -/
structure TickRandom where
  r1 : ℚ
  r2 : ℚ
  r3 : ℚ
  r4 : ℚ
  r5 : ℚ
  now : String
deriving DecidableEq, Repr

/-- The `setInterval` body of the Dashboard's simulation `useEffect`:
jitter and clamp the five measurement fields, refresh `lastUpdate`, and
spread everything else from the previous state unchanged. -/
def simulateTick (r : TickRandom) (prev : SensorData) : SensorData :=
  { prev with
    soilMoisture := jsMax 30 (jsMin 100 (prev.soilMoisture + (r.r1 - 0.5) * 10))
    sunlight := jsMax 15 (jsMin 35 (prev.sunlight + (r.r2 - 0.5) * 2))
    rainfall := jsMax 40 (jsMin 90 (prev.rainfall + (r.r3 - 0.5) * 5))
    tankLevel := jsMax 0 (jsMin 100 (prev.tankLevel + (r.r4 - 0.5) * 3))
    phLevel := jsMax 5.0 (jsMin 8.5 (prev.phLevel + (r.r5 - 0.5) * 0.3))
    lastUpdate := r.now }

end AgroSmart.Dashboard

namespace AgroSmart.Reports

/-- `ReportData` interface of `Reports.tsx`: one record (one day or one
week) of the report dataset. -/
structure ReportData where
  date : String
  totalWaterUsed : ℚ
  irrigationTime : ℚ
  pumpCycles : Nat
  avgSoilMoisture : ℚ
  alerts : Nat
  efficiency : ℚ
deriving DecidableEq, Repr

/-- The aggregate object computed by `getTotalStats`. -/
structure TotalStats where
  totalWater : ℚ
  totalTime : ℚ
  totalCycles : Nat
  avgEfficiency : ℚ
  totalAlerts : Nat
deriving DecidableEq, Repr

/-- `getTotalStats`: field-wise sums over the dataset plus the average
efficiency (sum divided by length; the component only evaluates it on
nonempty datasets, so the division is never by zero in the source). -/
def getTotalStats (data : List ReportData) : TotalStats :=
  { totalWater := (data.map (fun item => item.totalWaterUsed)).sum
    totalTime := (data.map (fun item => item.irrigationTime)).sum
    totalCycles := (data.map (fun item => item.pumpCycles)).sum
    avgEfficiency := (data.map (fun item => item.efficiency)).sum / (data.length : ℚ)
    totalAlerts := (data.map (fun item => item.alerts)).sum }

/-- The fixed column headers shared by the three encodings. -/
def reportHeaders : List String :=
  [ "Date", "Water Used (L)", "Runtime (min)", "Pump Cycles",
    "Avg Soil Moisture (%)", "Alerts", "Efficiency (%)" ]

/-- One table row of the two comma-delimited encodings: the seven cell
values joined by commas, with the source's `toFixed` formatting. -/
def csvRow (row : ReportData) : String :=
  String.intercalate ","
    [ row.date,
      qToFixed row.totalWaterUsed 2,
      qToFixed row.irrigationTime 1,
      toString row.pumpCycles,
      qToFixed row.avgSoilMoisture 1,
      toString row.alerts,
      qToFixed row.efficiency 1 ]

/-- Document content built by `exportToCSV`: the joined header line
followed by one row per record, newline separated. The `stats` and `date`
arguments are received (as in the source signature) but do not occur in
the content; `date` only names the downloaded file. -/
def exportToCSV (data : List ReportData) (stats : TotalStats) (date : String) : String :=
  String.intercalate "\n" (String.intercalate "," reportHeaders :: data.map csvRow)

/-- The report-type label interpolated by the Excel and PDF encodings:
`reportType === 'daily' ? 'Daily' : 'Weekly'`. -/
def reportTypeLabel (reportType : String) : String :=
  if reportType = "daily" then "Daily" else "Weekly"

/-- The descriptive header block of the `exportToExcel` content: title,
generation date, report type and the aggregate summary figures, ending
with the blank line preceding the table. -/
def excelSummaryLines (stats : TotalStats) (date reportType : String) : List String :=
  [ "AgroSmart Irrigation Report",
    "Generated: " ++ date,
    "Report Type: " ++ reportTypeLabel reportType ++ " Report",
    "Total Water: " ++ qToFixed stats.totalWater 1 ++ "L",
    "Total Runtime: " ++ toString ⌊stats.totalTime / 60⌋ ++ "h " ++
      toString ⌊jsModQ stats.totalTime 60⌋ ++ "m",
    "Total Cycles: " ++ toString stats.totalCycles,
    "Average Efficiency: " ++ qToFixed stats.avgEfficiency 1 ++ "%",
    "Total Alerts: " ++ toString stats.totalAlerts,
    "" ]

/-- Document content built by `exportToExcel`: the descriptive header
block, then the same comma-delimited table as the CSV encoding, all
newline separated. -/
def exportToExcel (data : List ReportData) (stats : TotalStats)
    (date reportType : String) : String :=
  String.intercalate "\n"
    (excelSummaryLines stats date reportType ++
      (String.intercalate "," reportHeaders :: data.map csvRow))

/-- One `<tr>` block of the `exportToPDF` table body, as produced by the
row template literal (indentation and line breaks included). -/
def pdfRow (row : ReportData) : String :=
  "\n              <tr>\n                <td>" ++ row.date ++
  "</td>\n                <td>" ++ qToFixed row.totalWaterUsed 2 ++
  "</td>\n                <td>" ++ qToFixed row.irrigationTime 1 ++
  "</td>\n                <td>" ++ toString row.pumpCycles ++
  "</td>\n                <td>" ++ qToFixed row.avgSoilMoisture 1 ++
  "</td>\n                <td>" ++ toString row.alerts ++
  "</td>\n                <td>" ++ qToFixed row.efficiency 1 ++
  "</td>\n              </tr>\n            "

/-- The part of the `exportToPDF` template preceding the interpolated
table rows: document head, styles, header with generation date and report
type, and the summary-statistics block. -/
def pdfHead (stats : TotalStats) (date reportType : String) : String :=
  "\n      <!DOCTYPE html>\n      <html>\n      <head>\n        <title>AgroSmart Irrigation Report</title>\n        <style>" ++
  "\n          body \x7b font-family: Arial, sans-serif; margin: 20px; \x7d" ++
  "\n          .header \x7b text-align: center; margin-bottom: 30px; \x7d" ++
  "\n          .title \x7b font-size: 24px; font-weight: bold; color: #2d5a27; \x7d" ++
  "\n          .subtitle \x7b font-size: 16px; color: #666; margin-top: 10px; \x7d" ++
  "\n          .summary \x7b background: #f5f5f5; padding: 15px; border-radius: 5px; margin-bottom: 20px; \x7d" ++
  "\n          .summary h3 \x7b margin-top: 0; color: #2d5a27; \x7d" ++
  "\n          .summary-grid \x7b display: grid; grid-template-columns: repeat(auto-fit, minmax(200px, 1fr)); gap: 15px; \x7d" ++
  "\n          .summary-item \x7b text-align: center; \x7d" ++
  "\n          .summary-value \x7b font-size: 20px; font-weight: bold; color: #2d5a27; \x7d" ++
  "\n          .summary-label \x7b font-size: 12px; color: #666; margin-top: 5px; \x7d" ++
  "\n          table \x7b width: 100%; border-collapse: collapse; margin-top: 20px; \x7d" ++
  "\n          th, td \x7b border: 1px solid #ddd; padding: 8px; text-align: left; \x7d" ++
  "\n          th \x7b background-color: #2d5a27; color: white; \x7d" ++
  "\n          tr:nth-child(even) \x7b background-color: #f9f9f9; \x7d" ++
  "\n          .footer \x7b margin-top: 30px; text-align: center; font-size: 12px; color: #666; \x7d" ++
  "\n        </style>\n      </head>\n      <body>\n        <div class=\"header\">" ++
  "\n          <div class=\"title\">AgroSmart Irrigation Report</div>" ++
  "\n          <div class=\"subtitle\">Generated on " ++ date ++ "</div>" ++
  "\n          <div class=\"subtitle\">" ++ reportTypeLabel reportType ++ " Report</div>" ++
  "\n        </div>\n        \n        <div class=\"summary\">" ++
  "\n          <h3>Summary Statistics</h3>" ++
  "\n          <div class=\"summary-grid\">" ++
  "\n            <div class=\"summary-item\">" ++
  "\n              <div class=\"summary-value\">" ++ qToFixed stats.totalWater 1 ++ "L</div>" ++
  "\n              <div class=\"summary-label\">Total Water Used</div>" ++
  "\n            </div>" ++
  "\n            <div class=\"summary-item\">" ++
  "\n              <div class=\"summary-value\">" ++ toString ⌊stats.totalTime / 60⌋ ++ "h " ++
  toString ⌊jsModQ stats.totalTime 60⌋ ++ "m</div>" ++
  "\n              <div class=\"summary-label\">Total Runtime</div>" ++
  "\n            </div>" ++
  "\n            <div class=\"summary-item\">" ++
  "\n              <div class=\"summary-value\">" ++ toString stats.totalCycles ++ "</div>" ++
  "\n              <div class=\"summary-label\">Pump Cycles</div>" ++
  "\n            </div>" ++
  "\n            <div class=\"summary-item\">" ++
  "\n              <div class=\"summary-value\">" ++ qToFixed stats.avgEfficiency 1 ++ "%</div>" ++
  "\n              <div class=\"summary-label\">Avg Efficiency</div>" ++
  "\n            </div>" ++
  "\n            <div class=\"summary-item\">" ++
  "\n              <div class=\"summary-value\">" ++ toString stats.totalAlerts ++ "</div>" ++
  "\n              <div class=\"summary-label\">Total Alerts</div>" ++
  "\n            </div>" ++
  "\n          </div>\n        </div>\n        \n        <table>\n          <thead>\n            <tr>" ++
  "\n              <th>Date</th>\n              <th>Water Used (L)</th>\n              <th>Runtime (min)</th>\n              <th>Pump Cycles</th>\n              <th>Avg Soil Moisture (%)</th>\n              <th>Alerts</th>\n              <th>Efficiency (%)</th>" ++
  "\n            </tr>\n          </thead>\n          <tbody>\n            "

/-- The part of the `exportToPDF` template following the interpolated
table rows: table close and footer. -/
def pdfTail : String :=
  "\n          </tbody>\n        </table>\n        \n        <div class=\"footer\">" ++
  "\n          <p>Generated by AgroSmart Smart Irrigation Management System</p>" ++
  "\n          <p>For more information, visit the AgroSmart dashboard</p>" ++
  "\n        </div>\n      </body>\n      </html>\n    "

/-- Document content built by `exportToPDF`: the template head with date,
report type and summary figures, the row blocks joined with the empty
separator (`data.map(...).join('')`), and the fixed tail. -/
def exportToPDF (data : List ReportData) (stats : TotalStats)
    (date reportType : String) : String :=
  pdfHead stats date reportType ++ String.join (data.map pdfRow) ++ pdfTail

/-- A concrete one-record dataset used to evaluate the export encodings at
a specific input. -/
def sampleReportRow : ReportData :=
  { date := "2025-01-01"
    totalWaterUsed := 30
    irrigationTime := 60
    pumpCycles := 4
    avgSoilMoisture := 60
    alerts := 1
    efficiency := 80 }

end AgroSmart.Reports

namespace AgroSmart

/-! ## Helper lemmas -/

lemma jsMax_jsMin_of_lt_max (a b q : ℚ) (hab : a ≤ b) (h : b < q) :
    jsMax a (jsMin b q) = b := by
  unfold jsMax jsMin
  split_ifs <;> linarith

lemma jsMax_jsMin_of_lt_min (a b q : ℚ) (hab : a ≤ b) (h : q < a) :
    jsMax a (jsMin b q) = a := by
  unfold jsMax jsMin
  split_ifs <;> linarith

lemma jsMax_jsMin_bounds (a b q : ℚ) (hab : a ≤ b) :
    a ≤ jsMax a (jsMin b q) ∧ jsMax a (jsMin b q) ≤ b := by
  unfold jsMax jsMin
  split_ifs <;> constructor <;> linarith

lemma Dashboard.applyToggle_pumpInvariant (op : Dashboard.ZoneToggle)
    (s : Dashboard.SensorData) : Dashboard.pumpInvariant (Dashboard.applyToggle op s) := by
  cases op <;>
    simp [Dashboard.applyToggle, Dashboard.toggleZone1, Dashboard.toggleZone2,
      Dashboard.pumpInvariant]

lemma Dashboard.runToggles_pumpInvariant (ops : List Dashboard.ZoneToggle)
    (s : Dashboard.SensorData) (h : Dashboard.pumpInvariant s) :
    Dashboard.pumpInvariant (Dashboard.runToggles ops s) := by
  induction ops generalizing s with
  | nil => exact h
  | cons op ops ih => exact ih _ (Dashboard.applyToggle_pumpInvariant op s)

lemma intercalate_go_acc (s : String) (as : List String) (a₁ a₂ : String) :
    String.intercalate.go (a₁ ++ a₂) s as = a₁ ++ String.intercalate.go a₂ s as := by
  induction as generalizing a₂ with
  | nil => rfl
  | cons a as ih =>
    show String.intercalate.go (a₁ ++ a₂ ++ s ++ a) s as = _
    rw [String.append_assoc, String.append_assoc, ← String.append_assoc a₂ s a, ih]
    rfl

lemma intercalate_append_cons (s x : String) (xs : List String) (y : String)
    (ys : List String) :
    String.intercalate s (x :: xs ++ y :: ys) =
      String.intercalate s (x :: xs) ++ s ++ String.intercalate s (y :: ys) := by
  show String.intercalate.go x s (xs ++ y :: ys) =
    String.intercalate.go x s xs ++ s ++ String.intercalate.go y s ys
  induction xs generalizing x with
  | nil =>
    show String.intercalate.go (x ++ s ++ y) s ys = x ++ s ++ String.intercalate.go y s ys
    exact intercalate_go_acc s ys (x ++ s) y
  | cons a xs ih =>
    show String.intercalate.go (x ++ s ++ a) s (xs ++ y :: ys) = _
    rw [ih]
    rfl

end AgroSmart



namespace AgroSmart

/-! ## Claim theorems -/

/-- C1: from the dashboard's initial state (both zones inactive, pump
off), after every sequence of zone toggle operations the derived pump flag
equals the logical OR of the current zone flags, at every observation
point; in particular the four-step toggle trace is followed exactly:
toggle 1 gives (on, off, pump on), toggle 2 gives (on, on, pump on),
toggle 1 gives (off, on, pump on), toggle 2 gives (off, off, pump off). -/
theorem c1_toggles_keep_pump_or_of_zones :
    (∀ t : String,
      (Dashboard.initialSensorData t).zone1Status = false ∧
      (Dashboard.initialSensorData t).zone2Status = false ∧
      (Dashboard.initialSensorData t).pumpStatus = false) ∧
    (∀ (ops : List Dashboard.ZoneToggle) (t : String),
      Dashboard.pumpInvariant (Dashboard.runToggles ops (Dashboard.initialSensorData t))) ∧
    (∀ t : String,
      (Dashboard.toggleZone1 (Dashboard.initialSensorData t)).zone1Status = true ∧
      (Dashboard.toggleZone1 (Dashboard.initialSensorData t)).zone2Status = false ∧
      (Dashboard.toggleZone1 (Dashboard.initialSensorData t)).pumpStatus = true ∧
      (Dashboard.toggleZone2 (Dashboard.toggleZone1 (Dashboard.initialSensorData t))).zone1Status = true ∧
      (Dashboard.toggleZone2 (Dashboard.toggleZone1 (Dashboard.initialSensorData t))).zone2Status = true ∧
      (Dashboard.toggleZone2 (Dashboard.toggleZone1 (Dashboard.initialSensorData t))).pumpStatus = true ∧
      (Dashboard.toggleZone1 (Dashboard.toggleZone2 (Dashboard.toggleZone1 (Dashboard.initialSensorData t)))).zone1Status = false ∧
      (Dashboard.toggleZone1 (Dashboard.toggleZone2 (Dashboard.toggleZone1 (Dashboard.initialSensorData t)))).zone2Status = true ∧
      (Dashboard.toggleZone1 (Dashboard.toggleZone2 (Dashboard.toggleZone1 (Dashboard.initialSensorData t)))).pumpStatus = true ∧
      (Dashboard.toggleZone2 (Dashboard.toggleZone1 (Dashboard.toggleZone2 (Dashboard.toggleZone1 (Dashboard.initialSensorData t))))).zone1Status = false ∧
      (Dashboard.toggleZone2 (Dashboard.toggleZone1 (Dashboard.toggleZone2 (Dashboard.toggleZone1 (Dashboard.initialSensorData t))))).zone2Status = false ∧
      (Dashboard.toggleZone2 (Dashboard.toggleZone1 (Dashboard.toggleZone2 (Dashboard.toggleZone1 (Dashboard.initialSensorData t))))).pumpStatus = false) := by
  refine ⟨fun t => ⟨rfl, rfl, rfl⟩, fun ops t => ?_, fun t => ?_⟩
  · exact Dashboard.runToggles_pumpInvariant ops _ rfl
  · exact ⟨rfl, rfl, rfl, rfl, rfl, rfl, rfl, rfl, rfl, rfl, rfl, rfl⟩

/-- C2: for every one of the five fields, an entirely absent raw record,
an absent field, a null field, or a string field that does not parse as a
number all normalize to the documented default 0, with no error raised
(the operation is total). -/
theorem c2_default_on_missing_or_unparsable :
    ∀ key : DataService.FirebaseSensorFields,
      DataService.DEFAULT_SENSOR_DATA.get (DataService.mapFirebaseToSensorData key) = 0 ∧
      DataService.parseAndValidateSensorValue none key = 0 ∧
      (∀ d : DataService.RawRecord, d.get key = none →
        DataService.parseAndValidateSensorValue (some d) key = 0) ∧
      (∀ d : DataService.RawRecord, d.get key = some .vNull →
        DataService.parseAndValidateSensorValue (some d) key = 0) ∧
      (∀ (d : DataService.RawRecord) (s : String),
        d.get key = some (.vStr s) → jsParseFloat s = none →
        DataService.parseAndValidateSensorValue (some d) key = 0) := by
  intro key
  have hdef : DataService.DEFAULT_SENSOR_DATA.get (DataService.mapFirebaseToSensorData key) = 0 := by
    cases key <;> rfl
  refine ⟨hdef, hdef, ?_, ?_, ?_⟩
  · intro d h
    simp only [DataService.parseAndValidateSensorValue, h]
    exact hdef
  · intro d h
    simp only [DataService.parseAndValidateSensorValue, h]
    exact hdef
  · intro d s h hp
    simp only [DataService.parseAndValidateSensorValue, h, DataService.rawParseFloat, hp]
    exact hdef

/-- Witness for C2 at a concrete input: a record whose soil-moisture field
is the non-numeric string `"abc"` normalizes that field to 0. -/
theorem c2_default_on_missing_or_unparsable_witness :
    DataService.parseAndValidateSensorValue
      (some { SoilMoisture := some (.vStr "abc"), Temperature := none,
              Humidity := none, TankLevel := none, FlowRate_LperMin := none })
      .SoilMoisture = 0 :=
  (c2_default_on_missing_or_unparsable .SoilMoisture).2.2.2.2 _ "abc" rfl (by decide)

/-- C3: the validation ranges are as declared; a parsed raw number above a
field's maximum normalizes to the maximum and one below the minimum to the
minimum; and every normalized value of every field, on every input, lies
within the field's declared range (nothing passes through unclamped). -/
theorem c3_clamped_into_declared_range :
    (DataService.VALIDATION_RANGES .soilMoisture = { min := 0, max := 100 } ∧
     DataService.VALIDATION_RANGES .temperature = { min := -50, max := 100 } ∧
     DataService.VALIDATION_RANGES .humidity = { min := 0, max := 100 } ∧
     DataService.VALIDATION_RANGES .tankLevel = { min := 0, max := 100 } ∧
     DataService.VALIDATION_RANGES .flowRate = { min := 0, max := 1000 }) ∧
    (∀ (key : DataService.FirebaseSensorFields) (d : DataService.RawRecord)
        (v : DataService.RawValue) (q : ℚ),
      d.get key = some v → DataService.rawParseFloat v = some q →
      ((DataService.VALIDATION_RANGES (DataService.mapFirebaseToSensorData key)).max < q →
        DataService.parseAndValidateSensorValue (some d) key =
          (DataService.VALIDATION_RANGES (DataService.mapFirebaseToSensorData key)).max) ∧
      (q < (DataService.VALIDATION_RANGES (DataService.mapFirebaseToSensorData key)).min →
        DataService.parseAndValidateSensorValue (some d) key =
          (DataService.VALIDATION_RANGES (DataService.mapFirebaseToSensorData key)).min)) ∧
    (∀ (key : DataService.FirebaseSensorFields) (data : Option DataService.RawRecord),
      (DataService.VALIDATION_RANGES (DataService.mapFirebaseToSensorData key)).min ≤
        DataService.parseAndValidateSensorValue data key ∧
      DataService.parseAndValidateSensorValue data key ≤
        (DataService.VALIDATION_RANGES (DataService.mapFirebaseToSensorData key)).max) := by
  have hrange : ∀ key : DataService.FirebaseSensorFields,
      (DataService.VALIDATION_RANGES (DataService.mapFirebaseToSensorData key)).min ≤
        (DataService.VALIDATION_RANGES (DataService.mapFirebaseToSensorData key)).max := by
    intro key; cases key <;> norm_num [DataService.VALIDATION_RANGES,
      DataService.mapFirebaseToSensorData]
  have hdef : ∀ key : DataService.FirebaseSensorFields,
      (DataService.VALIDATION_RANGES (DataService.mapFirebaseToSensorData key)).min ≤
        DataService.DEFAULT_SENSOR_DATA.get (DataService.mapFirebaseToSensorData key) ∧
      DataService.DEFAULT_SENSOR_DATA.get (DataService.mapFirebaseToSensorData key) ≤
        (DataService.VALIDATION_RANGES (DataService.mapFirebaseToSensorData key)).max := by
    intro key; cases key <;> norm_num [DataService.VALIDATION_RANGES,
      DataService.mapFirebaseToSensorData, DataService.DEFAULT_SENSOR_DATA,
      DataService.SensorData.get]
  refine ⟨⟨rfl, rfl, rfl, rfl, rfl⟩, ?_, ?_⟩
  · intro key d v q hget hparse
    cases v with
    | vNull => simp [DataService.rawParseFloat] at hparse
    | vNum q₀ =>
      simp only [DataService.rawParseFloat, Option.some.injEq] at hparse
      subst hparse
      constructor <;> intro hq <;>
        simp only [DataService.parseAndValidateSensorValue, hget,
          DataService.rawParseFloat]
      · exact jsMax_jsMin_of_lt_max _ _ _ (hrange key) hq
      · exact jsMax_jsMin_of_lt_min _ _ _ (hrange key) hq
    | vStr s =>
      simp only [DataService.rawParseFloat] at hparse
      constructor <;> intro hq <;>
        simp only [DataService.parseAndValidateSensorValue, hget,
          DataService.rawParseFloat, hparse]
      · exact jsMax_jsMin_of_lt_max _ _ _ (hrange key) hq
      · exact jsMax_jsMin_of_lt_min _ _ _ (hrange key) hq
  · intro key data
    cases data with
    | none => exact hdef key
    | some d =>
      simp only [DataService.parseAndValidateSensorValue]
      cases hget : d.get key with
      | none => exact hdef key
      | some v =>
        cases v with
        | vNull => exact hdef key
        | vNum q₀ =>
          simp only [DataService.rawParseFloat]
          exact jsMax_jsMin_bounds _ _ _ (hrange key)
        | vStr s =>
          simp only [DataService.rawParseFloat]
          cases hp : jsParseFloat s with
          | none => exact hdef key
          | some q₀ => exact jsMax_jsMin_bounds _ _ _ (hrange key)

/-- Witness for C3 at a concrete input: a raw soil-moisture value of 150
(above the 0-100 range) normalizes to the upper bound 100. -/
theorem c3_clamped_into_declared_range_witness :
    DataService.parseAndValidateSensorValue
      (some { SoilMoisture := some (.vNum 150), Temperature := none,
              Humidity := none, TankLevel := none, FlowRate_LperMin := none })
      .SoilMoisture = 100 :=
  (c3_clamped_into_declared_range.2.1 .SoilMoisture
      { SoilMoisture := some (.vNum 150), Temperature := none,
        Humidity := none, TankLevel := none, FlowRate_LperMin := none }
      (.vNum 150) 150 rfl rfl).1
    (by norm_num [DataService.VALIDATION_RANGES, DataService.mapFirebaseToSensorData])

/-- C4: the spec's scenario record (soil moisture `"150"`, temperature
null, humidity `"55.5"`, tank level `"-10"`, flow rate `"abc"`) normalizes
to exactly (100, 0, 55.5, 0, 0). -/
theorem c4_scenario_normalization :
    DataService.handleSensorSnapshot
      (some { SoilMoisture := some (.vStr "150"), Temperature := some .vNull,
              Humidity := some (.vStr "55.5"), TankLevel := some (.vStr "-10"),
              FlowRate_LperMin := some (.vStr "abc") }) =
      { soilMoisture := 100, temperature := 0, humidity := 55.5,
        tankLevel := 0, flowRate := 0 } := by
  decide

end AgroSmart

namespace AgroSmart

/-- C5 counterexample: with the pump write succeeding but the audit-log
write failing in transport, `setPumpState "ON"` performs the remote write
and returns `true`, yet appends no audit-log entry — so the claim that a
successful write returns true only after appending exactly one audit entry
(and that transport failure yields `false`) is false as stated. -/
theorem c5_write_pump_counterexample :
    (DataService.setPumpState
        { pumpWriteOk := true, actionWriteOk := false,
          now := "2025-01-01T00:00:00.000Z" } "ON"
        { pump := none, actions := [] }).1 = true ∧
    (DataService.setPumpState
        { pumpWriteOk := true, actionWriteOk := false,
          now := "2025-01-01T00:00:00.000Z" } "ON"
        { pump := none, actions := [] }).2.pump = some "ON" ∧
    (DataService.setPumpState
        { pumpWriteOk := true, actionWriteOk := false,
          now := "2025-01-01T00:00:00.000Z" } "ON"
        { pump := none, actions := [] }).2.actions = [] := by
  refine ⟨rfl, rfl, rfl⟩

/-- C5 (amended): `setPumpState` never raises; a value other than the
`"ON"`/`"OFF"` literals fails validation and returns `false` with no
remote write and no audit entry; a pump-write transport failure returns
`false` with nothing changed; on a successful pump write it returns `true`
and appends exactly one audit entry recording the action and the timestamp
when the audit append itself succeeds — if the audit append fails in
transport the failure is swallowed and the call still returns `true` with
no entry appended. -/
theorem c5_write_pump_contract :
    (∀ (env : DataService.RemoteEnv) (st : DataService.ControlsState) (s : String),
      s ≠ "ON" → s ≠ "OFF" → DataService.setPumpState env s st = (false, st)) ∧
    (∀ (env : DataService.RemoteEnv) (st : DataService.ControlsState) (s : String),
      env.pumpWriteOk = false → DataService.setPumpState env s st = (false, st)) ∧
    (∀ (env : DataService.RemoteEnv) (st : DataService.ControlsState) (s : String),
      (s = "ON" ∨ s = "OFF") → env.pumpWriteOk = true → env.actionWriteOk = true →
      DataService.setPumpState env s st =
        (true, { pump := some s,
                 actions := st.actions ++
                   [{ action := "Pump:" ++ s, timestamp := env.now, user := "web_app" }] })) ∧
    (∀ (env : DataService.RemoteEnv) (st : DataService.ControlsState) (s : String),
      (s = "ON" ∨ s = "OFF") → env.pumpWriteOk = true → env.actionWriteOk = false →
      DataService.setPumpState env s st = (true, { pump := some s, actions := st.actions })) := by
  refine ⟨?_, ?_, ?_, ?_⟩
  · intro env st s h1 h2
    simp [DataService.setPumpState, h1, h2]
  · intro env st s hw
    by_cases hval : s ≠ "ON" ∧ s ≠ "OFF" <;>
      simp [DataService.setPumpState, hval, hw]
  · intro env st s hval hw ha
    have hne : ¬ (s ≠ "ON" ∧ s ≠ "OFF") := by
      rcases hval with rfl | rfl <;> simp
    simp [DataService.setPumpState, hne, hw, DataService.logAction, ha]
  · intro env st s hval hw ha
    have hne : ¬ (s ≠ "ON" ∧ s ≠ "OFF") := by
      rcases hval with rfl | rfl <;> simp
    simp [DataService.setPumpState, hne, hw, DataService.logAction, ha]

/-- Witness for C5 (amended) at a concrete input: a successful `"ON"`
write with a working audit channel returns `true` and appends exactly the
one expected entry. -/
theorem c5_write_pump_contract_witness :
    DataService.setPumpState
        { pumpWriteOk := true, actionWriteOk := true,
          now := "2025-01-01T00:00:00.000Z" } "ON"
        { pump := none, actions := [] } =
      (true, { pump := some "ON",
               actions := [{ action := "Pump:ON",
                             timestamp := "2025-01-01T00:00:00.000Z",
                             user := "web_app" }] }) :=
  c5_write_pump_contract.2.2.1
    { pumpWriteOk := true, actionWriteOk := true, now := "2025-01-01T00:00:00.000Z" }
    { pump := none, actions := [] } "ON" (Or.inl rfl) rfl rfl

/-- C6 counterexample: an error with an unrecognized code surfaces the raw
provider message string itself, which is not in the fixed closed
vocabulary — so the claim that every surfaced message is drawn from the
closed vocabulary (raw provider messages never leaking) is false as
stated. -/
theorem c6_auth_error_counterexample :
    AuthService.getAuthErrorMessage
        { code := some "auth/network-request-failed",
          message := some "Firebase: Error (auth/network-request-failed)." } =
      "Firebase: Error (auth/network-request-failed)." ∧
    "Firebase: Error (auth/network-request-failed)." ∉ AuthService.authErrorVocabulary := by
  refine ⟨rfl, by decide⟩

/-- C6 (amended): for the ten recognized provider codes the surfaced
message is drawn from the fixed closed vocabulary; for any other error the
catch-all message is used only when the provider message is absent or
empty — otherwise the raw provider message string itself is surfaced to
the caller (the raw error object does not cross the boundary, but its
message text does). -/
theorem c6_auth_error_messages :
    ∀ e : AuthService.FirebaseAuthError,
      AuthService.getAuthErrorMessage e ∈ AuthService.authErrorVocabulary ∨
      ∃ s, e.message = some s ∧ s ≠ "" ∧ AuthService.getAuthErrorMessage e = s := by
  intro e
  unfold AuthService.getAuthErrorMessage
  by_cases h1 : e.code = some "auth/user-not-found"
  · rw [if_pos h1]; exact Or.inl (by decide)
  rw [if_neg h1]
  by_cases h2 : e.code = some "auth/wrong-password"
  · rw [if_pos h2]; exact Or.inl (by decide)
  rw [if_neg h2]
  by_cases h3 : e.code = some "auth/email-already-in-use"
  · rw [if_pos h3]; exact Or.inl (by decide)
  rw [if_neg h3]
  by_cases h4 : e.code = some "auth/weak-password"
  · rw [if_pos h4]; exact Or.inl (by decide)
  rw [if_neg h4]
  by_cases h5 : e.code = some "auth/invalid-email"
  · rw [if_pos h5]; exact Or.inl (by decide)
  rw [if_neg h5]
  by_cases h6 : e.code = some "auth/user-disabled"
  · rw [if_pos h6]; exact Or.inl (by decide)
  rw [if_neg h6]
  by_cases h7 : e.code = some "auth/too-many-requests"
  · rw [if_pos h7]; exact Or.inl (by decide)
  rw [if_neg h7]
  by_cases h8 : e.code = some "auth/operation-not-allowed"
  · rw [if_pos h8]; exact Or.inl (by decide)
  rw [if_neg h8]
  by_cases h9 : e.code = some "auth/invalid-credential"
  · rw [if_pos h9]; exact Or.inl (by decide)
  rw [if_neg h9]
  by_cases h10 : e.code = some "auth/requires-recent-login"
  · rw [if_pos h10]; exact Or.inl (by decide)
  rw [if_neg h10]
  cases hm : e.message with
  | none =>
    left
    decide
  | some s =>
    by_cases hs : s = ""
    · left
      subst hs
      decide
    · right
      refine ⟨s, rfl, hs, ?_⟩
      show (if s = "" then "An authentication error occurred." else s) = s
      rw [if_neg hs]

/-- C7: the pull variant `getSensorData` normalizes a fetched record with
exactly the same field-by-field normalization as the streaming path, and
resolves to the all-defaults record (every field 0) both when the upstream
record is absent and on transport failure, never propagating the transport
error. -/
theorem c7_pull_variant_matches_stream :
    (∀ r : DataService.RawRecord,
      DataService.getSensorData (.ok (some r)) = DataService.handleSensorSnapshot (some r)) ∧
    DataService.getSensorData (.ok none) = DataService.DEFAULT_SENSOR_DATA ∧
    (∀ e : DataService.TransportError,
      DataService.getSensorData (.error e) = DataService.DEFAULT_SENSOR_DATA) ∧
    DataService.DEFAULT_SENSOR_DATA =
      { soilMoisture := 0, temperature := 0, humidity := 0, tankLevel := 0, flowRate := 0 } :=
  ⟨fun _ => rfl, rfl, fun _ => rfl, rfl⟩

/-- C8: `getPumpState` returns the remote pump value when present (for the
remote flag domain `"ON"`/`"OFF"`), and returns `"OFF"` when the remote
value is absent and on transport failure, never raising. -/
theorem c8_read_pump_state :
    (∀ s : String, s = "ON" ∨ s = "OFF" → DataService.getPumpState (.ok (some s)) = s) ∧
    DataService.getPumpState (.ok none) = "OFF" ∧
    (∀ e : DataService.TransportError, DataService.getPumpState (.error e) = "OFF") := by
  refine ⟨?_, rfl, fun _ => rfl⟩
  rintro s (rfl | rfl) <;> rfl

/-- Witness for C8 at a concrete input: a remote value `"ON"` is returned
unchanged. -/
theorem c8_read_pump_state_witness :
    DataService.getPumpState (.ok (some "ON")) = "ON" :=
  c8_read_pump_state.1 "ON" (Or.inl rfl)

/-- C9 counterexample: the same one-record dataset exported on two
different generation dates yields different Excel-variant document content
(the generation date is embedded in the content, and the styled document
embeds it the same way), so the claim that each of the three encodings is
a function of the dataset alone — identical datasets always yielding
identical document content — is false as stated. -/
theorem c9_export_counterexample :
    Reports.exportToExcel [Reports.sampleReportRow]
        (Reports.getTotalStats [Reports.sampleReportRow]) "10/1/2025" "daily" ≠
      Reports.exportToExcel [Reports.sampleReportRow]
        (Reports.getTotalStats [Reports.sampleReportRow]) "10/2/2025" "daily" := by
  decide

/-- C9 (amended): the CSV content is a pure function of the dataset alone
(its received stats and date arguments do not affect the content), equal
to the fixed header line followed by one row per record in dataset order;
the Excel content is the descriptive summary block (a deterministic
function of the aggregate stats, the generation date and the report-type
label) followed by exactly that same CSV table; and the PDF content is the
fixed template head (with date, report type and aggregate stats), one
`<tr>` block per record in dataset order, and the fixed tail. -/
theorem c9_export_contents :
    (∀ (data : List Reports.ReportData) (s1 s2 : Reports.TotalStats) (d1 d2 : String),
      Reports.exportToCSV data s1 d1 = Reports.exportToCSV data s2 d2) ∧
    (∀ (data : List Reports.ReportData) (stats : Reports.TotalStats) (date : String),
      Reports.exportToCSV data stats date =
        String.intercalate "\n"
          (String.intercalate "," Reports.reportHeaders :: data.map Reports.csvRow)) ∧
    (∀ (data : List Reports.ReportData) (stats : Reports.TotalStats)
        (date reportType : String),
      Reports.exportToExcel data stats date reportType =
        String.intercalate "\n" (Reports.excelSummaryLines stats date reportType) ++
          "\n" ++ Reports.exportToCSV data stats date) ∧
    (∀ (data : List Reports.ReportData) (stats : Reports.TotalStats)
        (date reportType : String),
      Reports.exportToPDF data stats date reportType =
        Reports.pdfHead stats date reportType ++
          String.join (data.map Reports.pdfRow) ++ Reports.pdfTail) := by
  refine ⟨fun _ _ _ _ _ => rfl, fun _ _ _ => rfl, ?_, fun _ _ _ _ => rfl⟩
  intro data stats date reportType
  show String.intercalate "\n"
      ("AgroSmart Irrigation Report" :: _ ++ String.intercalate "," Reports.reportHeaders :: data.map Reports.csvRow) = _
  exact intercalate_append_cons "\n" _ _ _ _

/-- C10: a simulated sensor tick changes only the measurement fields and
the last-update stamp: for every prior state and every draw of the
randomness it leaves the two zone flags, the pump flag and the
connectivity flag unchanged, and therefore preserves the
pump-equals-OR-of-zones invariant. -/
theorem c10_tick_preserves_control_state :
    ∀ (r : Dashboard.TickRandom) (s : Dashboard.SensorData),
      (Dashboard.simulateTick r s).zone1Status = s.zone1Status ∧
      (Dashboard.simulateTick r s).zone2Status = s.zone2Status ∧
      (Dashboard.simulateTick r s).pumpStatus = s.pumpStatus ∧
      (Dashboard.simulateTick r s).isConnected = s.isConnected ∧
      (Dashboard.pumpInvariant s → Dashboard.pumpInvariant (Dashboard.simulateTick r s)) :=
  fun _ _ => ⟨rfl, rfl, rfl, rfl, fun h => h⟩

/-- Witness for C10 at a concrete input: a tick on the initial dashboard
state keeps the invariant. -/
theorem c10_tick_preserves_control_state_witness :
    Dashboard.pumpInvariant
      (Dashboard.simulateTick
        { r1 := 0.5, r2 := 0.5, r3 := 0.5, r4 := 0.5, r5 := 0.5, now := "t1" }
        (Dashboard.initialSensorData "t0")) :=
  (c10_tick_preserves_control_state
    { r1 := 0.5, r2 := 0.5, r3 := 0.5, r4 := 0.5, r5 := 0.5, now := "t1" }
    (Dashboard.initialSensorData "t0")).2.2.2.2 rfl

end AgroSmart
